import Mathlib

set_option maxHeartbeats 1000000

/-!
Verification of `calc_mutation_rate.py`: a shallow embedding of the
validator `check_f_n`, the fixed-point solver `calc_rate`, the header
parser `parse_file` and the row-processing driver `main`, together with
theorems settling the specification claims.

Python floats are modelled by real numbers (the spec and the claims are
stated over the reals); the `while` loop of `calc_rate` is modelled by a
fuel-indexed recursion returning `none` when the fuel is exhausted, so
that `∀ fuel, ... = none` expresses divergence of the unbounded loop.
-/

/-- Models Python's builtin `float()` on plain decimal digit strings:
the digit characters are folded into a natural number, `none` on any
non-digit character. -/
def natOfDigits (cs : List Char) : Option ℕ :=
  cs.foldl
    (fun acc c =>
      acc.bind (fun a => if c.isDigit then some (10 * a + (c.toNat - 48)) else none))
    (some 0)

/-- Models Python's builtin `float()` on an unsigned decimal literal:
digits with an optional single decimal point, at least one digit in
total; `none` (a `ValueError`) otherwise.  Exponent forms, `inf`/`nan`
and surrounding whitespace are not needed by the claims and are not
modelled. -/
def pyfloatCore (cs : List Char) : Option ℚ :=
  match cs.splitOn '.' with
  | [ip] => if ip.isEmpty then none else (natOfDigits ip).map (fun m => (m : ℚ))
  | [ip, fp] =>
    if ip.isEmpty && fp.isEmpty then none
    else
      match natOfDigits ip, natOfDigits fp with
      | some a, some b => some ((a : ℚ) + (b : ℚ) / 10 ^ fp.length)
      | _, _ => none
  | _ => none

/-- Models Python's builtin `float()` on a decimal literal with an
optional sign.  `none` models the `ValueError` raised on a malformed
literal. -/
def pyfloat (s : String) : Option ℚ :=
  match s.toList with
  | '-' :: cs => (pyfloatCore cs).map (fun q => -q)
  | '+' :: cs => pyfloatCore cs
  | cs => pyfloatCore cs

/-- Embedding of `check_f_n` from the source (lines 46-65): returns the sentinel
string `u` that the function returns in Python, paired with the list of
warning lines written to stdout.  The N-check runs first, the f-check
second, and the f-check's assignment overrides the N-check's when both
fire, while both warnings are emitted. -/
noncomputable def check_f_n (f n : ℝ) (samp : String) : String × List String :=
  let u := "no errors"
  let w : List String := []
  let p :=
    if n ≤ 0 then
      ("n must be positive",
        w ++ ["Warning: N must be positive.  Please recheck your data for sample " ++ samp ++ "\n"])
    else (u, w)
  if f ≤ 0 then
    ("f must be positive",
      p.2 ++ ["Warning: f must be positive.  Please recheck your data for sample " ++ samp ++ "\n"])
  else p

/-- First safety patch of `calc_rate` (source lines 84-85): a zero
estimate is replaced by the threshold. -/
noncomputable def patch1 (u thresh : ℝ) : ℝ := if u = 0 then thresh else u

/-- Second safety patch of `calc_rate` (source lines 86-87): when
`n*u == 1.0` exactly, nudge `u` by the threshold. -/
noncomputable def patch2 (n u thresh : ℝ) : ℝ := if n * u = 1 then u + thresh else u

/-- Third safety patch of `calc_rate` (source lines 88-89): when
`n*u < 0`, negate `u`. -/
noncomputable def patch3 (n u : ℝ) : ℝ := if n * u < 0 then -u else u

/-- The three safety patches applied to `u` at the top of each loop
iteration of `calc_rate` (source lines 83-89), in source order. -/
noncomputable def patchU (n u thresh : ℝ) : ℝ :=
  patch3 n (patch2 n (patch1 u thresh) thresh)

/-- The `while` loop of `calc_rate` (source lines 81-93), indexed by
fuel.  State is the pair `(u, diff)`; the loop guard `fabs(diff) > thresh`
is tested first, then the patched `u` produces `guess = f / log(n*u)`,
`diff = u - guess`, `u = guess`.  `none` means the fuel ran out with the
guard still true, so the unbounded Python loop has not yet terminated. -/
noncomputable def calcRateLoop (n f thresh : ℝ) : ℕ → ℝ → ℝ → Option ℝ
  | 0, u, d => if thresh < |d| then none else some u
  | fuel + 1, u, d =>
    if thresh < |d| then
      calcRateLoop n f thresh fuel (f / Real.log (n * patchU n u thresh))
        (patchU n u thresh - f / Real.log (n * patchU n u thresh))
    else some u

/-- Embedding of `calc_rate` from the source (lines 68-95): initial `diff` is the
sentinel `5`, then the loop runs. -/
noncomputable def calc_rate (n f u thresh : ℝ) (fuel : ℕ) : Option ℝ :=
  calcRateLoop n f thresh fuel u 5

/-- Result of checking the header row (source line 37).  The Python
expression `heading[0] != "name" or heading[1] != "f" or heading[2] != "N"`
short-circuits left to right, and each subscript raises `IndexError`
when the split header has too few fields. -/
inductive HeadResult where
  | ok : HeadResult
  | badHeader : HeadResult
  | indexError : HeadResult
deriving DecidableEq

/-- The header test of `parse_file`, with Python's short-circuit `or`
and out-of-range subscripts made explicit.  (`heading[0]` on an empty
list would raise `IndexError`; `String.splitOn` never actually produces
an empty list.) -/
def headCheck : List String → HeadResult
  | [] => .indexError
  | h0 :: rest =>
    if h0 ≠ "name" then .badHeader
    else
      match rest with
      | [] => .indexError
      | h1 :: rest2 =>
        if h1 ≠ "f" then .badHeader
        else
          match rest2 with
          | [] => .indexError
          | h2 :: _ => if h2 ≠ "N" then .badHeader else .ok

/-- Outcome of `parse_file` on the contents of an existing file. -/
inductive ParseResult where
  | ok : List (List String) → ParseResult
  | badHeader : ParseResult
  | indexError : ParseResult
deriving DecidableEq

/-- Splitting a character list on a separator character, with Python's
`str.split(sep)` semantics for a one-character separator: the empty
string yields `[[]]`, consecutive separators yield empty fields. -/
def splitOnChar (sep : Char) : List Char → List (List Char)
  | [] => [[]]
  | c :: rest =>
    if c = sep then [] :: splitOnChar sep rest
    else
      match splitOnChar sep rest with
      | [] => [[c]]
      | g :: gs => (c :: g) :: gs

/-- Models Python `s.split(sep)` for a one-character separator, on
Lean strings. -/
def pySplit (sep : Char) (s : String) : List String :=
  (splitOnChar sep s.toList).map (fun cs => cs.asString)

/-- The comma-split first line of the file (source line 36). -/
def fileHeading (contents : String) : List String :=
  pySplit ',' ((pySplit '\n' contents).headI)

/-- Embedding of `parse_file` from the source (lines 16-43), applied to the contents
of an existing file: split into lines, check the header, then split the
remaining non-blank lines on commas.  `badHeader` is the clean
`sys.exit` after the error message; `indexError` is the uncaught
`IndexError` from subscripting a short header. -/
def parse_file (contents : String) : ParseResult :=
  let file_contents := pySplit '\n' contents
  match headCheck (fileHeading contents) with
  | .badHeader => .badHeader
  | .indexError => .indexError
  | .ok =>
    .ok (((file_contents.drop 1).filter (fun x => 0 < x.length)).map (fun x => pySplit ',' x))

/-- An abnormal end of the row-processing stage: `valueError` is the
uncaught exception from `float()` on a malformed field, `nonterm` is the
solver loop failing to terminate within the available fuel. -/
inductive PyError where
  | valueError : PyError
  | nonterm : PyError
deriving DecidableEq

/-- One iteration of the `for` loop of `main` (source lines 121-137) on
one data row: returns the string appended to `output` together with the
warning lines written to stdout, or the abnormal outcome.  `rep` models
Python's `str` on a float result. -/
noncomputable def processLine (rep : ℝ → String) (fuel : ℕ) (line : List String) :
    Except PyError (String × List String) :=
  if line.length < 3 then
    .ok ("missing input",
      ["Warning:  the row \n" ++ String.intercalate "," line ++
        "\ndoes not contain the 3 required inputs.\n"])
  else
    match pyfloat (line.getD 1 "") with
    | none => .error .valueError
    | some fq =>
      match pyfloat (line.getD 2 "") with
      | none => .error .valueError
      | some nq =>
        let f : ℝ := (fq : ℝ)
        let n : ℝ := (nq : ℝ)
        let thresh := min f n / 1000000
        let c := check_f_n f n (line.getD 0 "")
        if c.1 = "no errors" then
          match calc_rate n f (f / 5) thresh fuel with
          | none => .error .nonterm
          | some r => .ok (String.intercalate "," (line.take 3) ++ "," ++ rep r, c.2)
        else .ok (String.intercalate "," (line.take 3) ++ "," ++ c.1, c.2)

/-- The `for` loop of `main` over all data rows, accumulating output
rows and warnings; an abnormal outcome on any row aborts the whole run
(the Python exception propagates out of `main`). -/
noncomputable def processData (rep : ℝ → String) (fuel : ℕ) :
    List (List String) → Except PyError (List String × List String)
  | [] => .ok ([], [])
  | line :: rest =>
    match processLine rep fuel line with
    | .error e => .error e
    | .ok (out, ws) =>
      match processData rep fuel rest with
      | .error e => .error e
      | .ok (outs, wss) => .ok (out :: outs, ws ++ wss)

/-- Overall observable outcome of a run of `main` on a file with the
given contents. -/
inductive RunOutcome where
  | output : List String → List String → RunOutcome
  | badHeader : RunOutcome
  | indexError : RunOutcome
  | valueError : RunOutcome
  | nonterm : RunOutcome
deriving DecidableEq

/-- Embedding of `main` from the source (lines 112-139), applied to the contents of
an existing input file: parse, process every row, and on success the
written output file holds the header line `name,f,N,u` followed by the
computed rows (`write_output`, lines 98-109, joins them with newlines). -/
noncomputable def runMain (rep : ℝ → String) (fuel : ℕ) (contents : String) : RunOutcome :=
  match parse_file contents with
  | .badHeader => .badHeader
  | .indexError => .indexError
  | .ok data =>
    match processData rep fuel data with
    | .error .valueError => .valueError
    | .error .nonterm => .nonterm
    | .ok (outs, ws) => .output ("name,f,N,u" :: outs) ws

/-! ## Theorems -/

lemma check_f_n_fst_cases (f n : ℝ) (s : String) :
    (check_f_n f n s).1 = "no errors" ∨ (check_f_n f n s).1 = "n must be positive" ∨
      (check_f_n f n s).1 = "f must be positive" := by
  by_cases hf : f ≤ 0 <;> by_cases hn : n ≤ 0 <;> simp [check_f_n, hf, hn]

/-- Claim C2: the validator returns "no errors" iff both f > 0 and
N > 0; it returns "n must be positive" when N ≤ 0 < f; and it returns
"f must be positive" whenever f ≤ 0, regardless of N, because the
N-check runs first and the f-check's result overrides it. -/
theorem C2_validator_cases (f n : ℝ) (s : String) :
    ((check_f_n f n s).1 = "no errors" ↔ 0 < f ∧ 0 < n) ∧
    (n ≤ 0 → 0 < f → (check_f_n f n s).1 = "n must be positive") ∧
    (f ≤ 0 → (check_f_n f n s).1 = "f must be positive") := by
  by_cases hf : f ≤ 0 <;> by_cases hn : n ≤ 0 <;>
    simp [check_f_n, hf, hn] <;> push_neg at hf hn <;> first
      | exact fun h => absurd hf (not_lt.mpr h)
      | exact ⟨hf, hn⟩
      | skip

/-- Witness for C2 at concrete inputs covering all three outcomes. -/
theorem C2_validator_cases_witness :
    (check_f_n 1 1 "A").1 = "no errors" ∧
    (check_f_n 1 (-1) "A").1 = "n must be positive" ∧
    (check_f_n (-1) (-1) "A").1 = "f must be positive" :=
  ⟨(C2_validator_cases 1 1 "A").1.mpr (by norm_num),
   (C2_validator_cases 1 (-1) "A").2.1 (by norm_num) (by norm_num),
   (C2_validator_cases (-1) (-1) "A").2.2 (by norm_num)⟩

/-- Counterexample to claim C3 as stated: at N = 1, u = -1,
threshold = 1 the three patches yield the estimate 1, so the argument
of the logarithm is 1 and the logarithm is 0 — the division
`f / log(n*u)` divides by zero (the third patch maps N*u = -1 onto
N*u = 1). -/
theorem C3_patch_counterexample :
    (0:ℝ) < 1 ∧ patchU 1 (-1) 1 = 1 ∧ Real.log ((1:ℝ) * patchU 1 (-1) 1) = 0 := by
  have h : patchU 1 (-1) 1 = 1 := by
    rw [patchU, patch1, if_neg (by norm_num), patch2, if_neg (by norm_num), patch3,
      if_pos (by norm_num)]
    norm_num
  exact ⟨by norm_num, h, by rw [h]; norm_num⟩

/-- Claim C3 (amended): for threshold > 0 the patches make
`f / log(N*u)` well-defined provided additionally N > 0 and N*u ≠ -1:
the patched argument of the logarithm is strictly positive and the
logarithm is nonzero.  (As stated the claim fails: N = 0 leaves the
argument at 0, and N*u = -1 is negated onto N*u = 1 where the
logarithm vanishes.) -/
theorem C3_patch_safety_amended (n u thresh : ℝ) (hthresh : 0 < thresh) (hn : 0 < n)
    (hnu : n * u ≠ -1) :
    0 < n * patchU n u thresh ∧ Real.log (n * patchU n u thresh) ≠ 0 := by
  have key : 0 < n * patchU n u thresh ∧ n * patchU n u thresh ≠ 1 := by
    rw [patchU, patch1, patch2, patch3]
    by_cases h0 : u = 0
    · rw [if_pos h0]
      by_cases h1 : n * thresh = 1
      · rw [if_pos h1]
        have h2 : n * (thresh + thresh) = 2 := by nlinarith
        rw [if_neg (by rw [h2]; norm_num)]
        rw [h2]; norm_num
      · rw [if_neg h1]
        rw [if_neg (by nlinarith)]
        constructor
        · positivity
        · exact h1
    · rw [if_neg h0]
      by_cases h1 : n * u = 1
      · rw [if_pos h1]
        have h2 : n * (u + thresh) = 1 + n * thresh := by nlinarith
        rw [if_neg (by rw [h2]; nlinarith)]
        rw [h2]
        constructor
        · nlinarith
        · nlinarith
      · rw [if_neg h1]
        by_cases h2 : n * u < 0
        · rw [if_pos h2]
          constructor
          · nlinarith
          · intro hc
            apply hnu
            nlinarith
        · rw [if_neg h2]
          push_neg at h2
          constructor
          · rcases lt_or_eq_of_le h2 with h3 | h3
            · exact h3
            · exact absurd (by nlinarith : u = 0) h0
          · exact h1
  refine ⟨key.1, fun hc => ?_⟩
  rcases Real.log_eq_zero.mp hc with h | h | h
  · exact absurd h (ne_of_gt key.1)
  · exact key.2 h
  · rw [h] at key; exact absurd key.1 (by norm_num)

/-- Witness for C3 (amended) at N = 1, u = 1, threshold = 1 (the
second patch fires: N*u = 1 is nudged to 2). -/
theorem C3_patch_safety_amended_witness :
    0 < (1:ℝ) * patchU 1 1 1 ∧ Real.log ((1:ℝ) * patchU 1 1 1) ≠ 0 :=
  C3_patch_safety_amended 1 1 1 (by norm_num) (by norm_num) (by norm_num)

lemma calcRateLoop_some_cases (n f thresh : ℝ) :
    ∀ (fuel : ℕ) (u d r : ℝ), calcRateLoop n f thresh fuel u d = some r →
      (|d| ≤ thresh ∧ r = u) ∨
      ∃ v, r = f / Real.log (n * v) ∧ |v - r| ≤ thresh := by
  intro fuel
  induction fuel with
  | zero =>
    intro u d r h
    rw [calcRateLoop] at h
    by_cases hc : thresh < |d|
    · rw [if_pos hc] at h; exact absurd h (by simp)
    · rw [if_neg hc] at h
      simp only [Option.some.injEq] at h
      exact Or.inl ⟨le_of_not_lt hc, h.symm⟩
  | succ k ih =>
    intro u d r h
    rw [calcRateLoop] at h
    by_cases hc : thresh < |d|
    · rw [if_pos hc] at h
      rcases ih _ _ _ h with ⟨hd, hr⟩ | h2
      · refine Or.inr ⟨patchU n u thresh, hr, ?_⟩
        rw [hr]; exact hd
      · exact Or.inr h2
    · rw [if_neg hc] at h
      simp only [Option.some.injEq] at h
      exact Or.inl ⟨le_of_not_lt hc, h.symm⟩

/-- Claim C1 (amended): whenever the solver terminates and the
threshold is small enough to enter the loop (threshold < 5, the
sentinel), the returned value u is the image `f / log(N*v)` of the
final patched estimate v, and only the *consecutive-estimate* bound
`|v - u| ≤ threshold` is guaranteed; the residual bound on the returned
estimate itself does not hold in general. -/
theorem C1_consecutive_estimate_bound (n f u thresh : ℝ) (fuel : ℕ) (r : ℝ)
    (h5 : thresh < 5) (h : calc_rate n f u thresh fuel = some r) :
    ∃ v, r = f / Real.log (n * v) ∧ |v - r| ≤ thresh := by
  rw [calc_rate] at h
  rcases calcRateLoop_some_cases n f thresh fuel u 5 r h with ⟨hd, _⟩ | h2
  · rw [abs_of_pos (by norm_num : (0:ℝ) < 5)] at hd; linarith
  · exact h2

lemma exp_five_run : calc_rate (Real.exp 5) 5 1 1 1 = some 1 := by
  have hne1 : Real.exp 5 * 1 ≠ 1 := by
    rw [mul_one]
    have : (1:ℝ) < Real.exp 5 := by
      rw [← Real.exp_zero]; exact Real.exp_lt_exp.mpr (by norm_num)
    exact this.ne'
  have hpatch : patchU (Real.exp 5) 1 1 = 1 := by
    rw [patchU, patch1, if_neg one_ne_zero, patch2, if_neg hne1, patch3,
      if_neg (not_lt.mpr (by positivity))]
  rw [calc_rate, calcRateLoop, if_pos (by rw [abs_of_pos]; norm_num; norm_num), hpatch,
    mul_one, Real.log_exp]
  norm_num
  rw [calcRateLoop, if_neg (by norm_num)]

/-- Witness for C1 (amended): at N = exp 5, f = 5, u0 = f/5 = 1,
threshold = 1 the solver terminates in one iteration at the exact fixed
point 1. -/
theorem C1_consecutive_estimate_bound_witness :
    (1:ℝ) < 5 ∧ ∃ v, (1:ℝ) = 5 / Real.log (Real.exp 5 * v) ∧ |v - 1| ≤ 1 :=
  ⟨by norm_num,
    C1_consecutive_estimate_bound (Real.exp 5) 5 1 1 1 1 (by norm_num) exp_five_run⟩

/-- Counterexample to claim C1 as stated: with f = 100 > 0,
N = exp 2 / 20 > 0 and threshold = 6 > 0 the solver returns
u = f/5 = 20 (the sentinel diff 5 already fails the loop guard), yet
the fixed-point residual |u - f/ln(N*u)| = |20 - 50| = 30 exceeds the
threshold. -/
theorem C1_residual_counterexample :
    (0:ℝ) < 100 ∧ (0:ℝ) < Real.exp 2 / 20 ∧ (0:ℝ) < 6 ∧
    calc_rate (Real.exp 2 / 20) 100 (100 / 5) 6 0 = some (100 / 5) ∧
    ¬ (|100 / 5 - 100 / Real.log (Real.exp 2 / 20 * (100 / 5))| ≤ (6:ℝ)) := by
  refine ⟨by norm_num, by positivity, by norm_num, ?_, ?_⟩
  · rw [calc_rate, calcRateLoop, if_neg (by rw [abs_of_pos] <;> norm_num)]
  · have harg : Real.exp 2 / 20 * (100 / 5) = Real.exp 2 := by ring
    rw [harg, Real.log_exp]
    have : (100:ℝ) / 5 - 100 / 2 = -30 := by norm_num
    rw [this, abs_neg, abs_of_pos (by norm_num : (0:ℝ) < 30)]
    norm_num

/-- Counterexample to claim C4 as stated: threshold = 6 > 0 is not
exceeded by the sentinel |diff| = 5, the loop body never executes, and
the solver returns the unmodified initial guess u0 = 3. -/
theorem C4_loop_entry_counterexample :
    (0:ℝ) < 6 ∧ ¬ (6 < |(5:ℝ)|) ∧ calc_rate 1 1 3 6 0 = some 3 := by
  refine ⟨by norm_num, by rw [abs_of_pos] <;> norm_num, ?_⟩
  rw [calc_rate, calcRateLoop, if_neg (by rw [abs_of_pos] <;> norm_num)]

/-- Claim C4 (amended): for 0 < threshold < 5 the sentinel diff = 5
does exceed the threshold, so the loop cannot finish without executing
its body at least once (the zero-iteration run is not terminal), and
every value the solver returns was produced by the loop body as
`f / log(N*v)` for some patched estimate v — never the unmodified
initial guess as such. -/
theorem C4_loop_entry_amended (n f u thresh : ℝ) (h0 : 0 < thresh) (h5 : thresh < 5) :
    calc_rate n f u thresh 0 = none ∧
    ∀ (fuel : ℕ) (r : ℝ), calc_rate n f u thresh fuel = some r →
      ∃ v, r = f / Real.log (n * v) := by
  constructor
  · rw [calc_rate, calcRateLoop, if_pos (by rw [abs_of_pos] <;> linarith)]
  · intro fuel r h
    rw [calc_rate] at h
    rcases calcRateLoop_some_cases n f thresh fuel u 5 r h with ⟨hd, _⟩ | ⟨v, hv, _⟩
    · rw [abs_of_pos (by norm_num : (0:ℝ) < 5)] at hd; linarith
    · exact ⟨v, hv⟩

/-- Witness for C4 (amended) at the C1 witness inputs: with
threshold 1 the zero-fuel run is not terminal, and the value 1 returned
after one iteration is a loop-body guess. -/
theorem C4_loop_entry_amended_witness :
    calc_rate (Real.exp 5) 5 1 1 0 = none ∧ ∃ v, (1:ℝ) = 5 / Real.log (Real.exp 5 * v) :=
  ⟨(C4_loop_entry_amended (Real.exp 5) 5 1 1 (by norm_num) (by norm_num)).1,
   (C4_loop_entry_amended (Real.exp 5) 5 1 1 (by norm_num) (by norm_num)).2 1 1 exp_five_run⟩

lemma twoCycle_none :
    ∀ (fuel : ℕ) (u d : ℝ),
      (u = (Real.exp 1 - 1) / Real.exp 1 ∨ u = Real.exp 1 - 1) → 1 / 2 < |d| →
      calcRateLoop (Real.exp 1 / (Real.exp 1 - 1) * Real.exp (1 / (Real.exp 1 - 1))) 1 (1 / 2)
        fuel u d = none := by
  have hE : (2:ℝ) < Real.exp 1 := lt_trans (by norm_num) Real.exp_one_gt_d9
  have hE0 : (0:ℝ) < Real.exp 1 := by linarith
  have hE1 : (0:ℝ) < Real.exp 1 - 1 := by linarith
  have hEne : Real.exp 1 ≠ 0 := ne_of_gt hE0
  have hE1ne : Real.exp 1 - 1 ≠ 0 := ne_of_gt hE1
  have hp0 : (0:ℝ) < 1 / (Real.exp 1 - 1) := by positivity
  have hua0 : (0:ℝ) < (Real.exp 1 - 1) / Real.exp 1 := by positivity
  have hn0 : (0:ℝ) < Real.exp 1 / (Real.exp 1 - 1) * Real.exp (1 / (Real.exp 1 - 1)) := by
    positivity
  have hexp1 : ∀ x : ℝ, 0 < x → Real.exp x ≠ 1 := by
    intro x hx
    have : (1:ℝ) < Real.exp x := by rw [← Real.exp_zero]; exact Real.exp_lt_exp.mpr hx
    exact this.ne'
  -- the two products of the cycle
  have hna : Real.exp 1 / (Real.exp 1 - 1) * Real.exp (1 / (Real.exp 1 - 1)) *
      ((Real.exp 1 - 1) / Real.exp 1) = Real.exp (1 / (Real.exp 1 - 1)) := by
    field_simp
  have hnb : Real.exp 1 / (Real.exp 1 - 1) * Real.exp (1 / (Real.exp 1 - 1)) *
      (Real.exp 1 - 1) = Real.exp (1 + 1 / (Real.exp 1 - 1)) := by
    rw [Real.exp_add]
    field_simp
  -- the two logarithm evaluations
  have hga : 1 / Real.log (Real.exp 1 / (Real.exp 1 - 1) * Real.exp (1 / (Real.exp 1 - 1)) *
      ((Real.exp 1 - 1) / Real.exp 1)) = Real.exp 1 - 1 := by
    rw [hna, Real.log_exp, one_div_one_div]
  have hsum : 1 + 1 / (Real.exp 1 - 1) = Real.exp 1 / (Real.exp 1 - 1) := by
    field_simp
  have hgb : 1 / Real.log (Real.exp 1 / (Real.exp 1 - 1) * Real.exp (1 / (Real.exp 1 - 1)) *
      (Real.exp 1 - 1)) = (Real.exp 1 - 1) / Real.exp 1 := by
    rw [hnb, Real.log_exp, hsum, one_div_div]
  -- the patches are no-ops on both cycle points
  have hpa : patchU (Real.exp 1 / (Real.exp 1 - 1) * Real.exp (1 / (Real.exp 1 - 1)))
      ((Real.exp 1 - 1) / Real.exp 1) (1 / 2) = (Real.exp 1 - 1) / Real.exp 1 := by
    rw [patchU, patch1, if_neg (ne_of_gt hua0), patch2,
      if_neg (by rw [hna]; exact hexp1 _ hp0), patch3,
      if_neg (not_lt.mpr (le_of_lt (by rw [hna]; exact Real.exp_pos _)))]
  have hpb : patchU (Real.exp 1 / (Real.exp 1 - 1) * Real.exp (1 / (Real.exp 1 - 1)))
      (Real.exp 1 - 1) (1 / 2) = Real.exp 1 - 1 := by
    rw [patchU, patch1, if_neg (ne_of_gt hE1), patch2,
      if_neg (by rw [hnb]; exact hexp1 _ (by positivity)), patch3,
      if_neg (not_lt.mpr (le_of_lt (by rw [hnb]; exact Real.exp_pos _)))]
  -- the gap between the two cycle points stays above the threshold
  have hgapeq : (Real.exp 1 - 1) - (Real.exp 1 - 1) / Real.exp 1 =
      (Real.exp 1 - 1) ^ 2 / Real.exp 1 := by
    field_simp
    ring
  have hgap : 1 / 2 < (Real.exp 1 - 1) - (Real.exp 1 - 1) / Real.exp 1 := by
    rw [hgapeq, lt_div_iff hE0]
    nlinarith
  have hlt : (Real.exp 1 - 1) / Real.exp 1 < Real.exp 1 - 1 := by linarith
  intro fuel
  induction fuel with
  | zero =>
    intro u d _ hd
    rw [calcRateLoop, if_pos hd]
  | succ k ih =>
    intro u d hu hd
    rw [calcRateLoop, if_pos hd]
    rcases hu with h | h
    · rw [h, hpa, hga]
      apply ih _ _ (Or.inr rfl)
      rw [abs_sub_comm, abs_of_pos (by linarith)]
      linarith
    · rw [h, hpb, hgb]
      apply ih _ _ (Or.inl rfl)
      rw [abs_of_pos (by linarith)]
      linarith

/-- Claim C8: the solver loop has no iteration cap and need not
terminate: there is an input (with positive threshold) on which the
iteration, with all three safety patches applied, runs forever — here
it oscillates exactly between the two points (e-1)/e and e-1 of a
2-cycle of u ↦ f/ln(N·u). -/
theorem C8_divergent_input_exists :
    ∃ (n f u thresh : ℝ), 0 < thresh ∧ ∀ fuel : ℕ, calc_rate n f u thresh fuel = none := by
  refine ⟨Real.exp 1 / (Real.exp 1 - 1) * Real.exp (1 / (Real.exp 1 - 1)), 1,
    (Real.exp 1 - 1) / Real.exp 1, 1 / 2, by norm_num, fun fuel => ?_⟩
  rw [calc_rate]
  exact twoCycle_none fuel _ 5 (Or.inl rfl) (by rw [abs_of_pos] <;> norm_num)

lemma headCheck_characterization (hs : List String) :
    (headCheck hs = .indexError ↔ hs = [] ∨ hs = ["name"] ∨ hs = ["name", "f"]) ∧
    (headCheck hs = .badHeader ↔
      (∃ a t, hs = a :: t ∧ a ≠ "name") ∨
      (∃ b t, hs = "name" :: b :: t ∧ b ≠ "f") ∨
      (∃ c t, hs = "name" :: "f" :: c :: t ∧ c ≠ "N")) := by
  rcases hs with _ | ⟨a, _ | ⟨b, _ | ⟨c, t⟩⟩⟩
  · simp [headCheck]
  · by_cases ha : a = "name" <;> simp [headCheck, ha]
  · by_cases ha : a = "name" <;> by_cases hb : b = "f" <;> simp [headCheck, ha, hb]
  · by_cases ha : a = "name" <;> by_cases hb : b = "f" <;> by_cases hc : c = "N" <;>
      simp [headCheck, ha, hb, hc]

/-- Claim C10 (amended): because the header test short-circuits left to
right, the uncaught IndexError occurs exactly when the comma-split
header is a proper prefix of name,f,N shorter than three fields
(i.e. it is `["name"]` or `["name","f"]`), and the clean bad-header
exit occurs exactly when some field that is present among the first
three mismatches at the first position examined — in particular a
header with fewer than three fields whose first field is not "name"
exits cleanly, contrary to the claim as stated. -/
theorem C10_header_characterization (contents : String) :
    (parse_file contents = .indexError ↔
      fileHeading contents = [] ∨ fileHeading contents = ["name"] ∨
        fileHeading contents = ["name", "f"]) ∧
    (parse_file contents = .badHeader ↔
      (∃ a t, fileHeading contents = a :: t ∧ a ≠ "name") ∨
      (∃ b t, fileHeading contents = "name" :: b :: t ∧ b ≠ "f") ∨
      (∃ c t, fileHeading contents = "name" :: "f" :: c :: t ∧ c ≠ "N")) := by
  have hpf : (parse_file contents = .indexError ↔
        headCheck (fileHeading contents) = .indexError) ∧
      (parse_file contents = .badHeader ↔ headCheck (fileHeading contents) = .badHeader) := by
    rw [parse_file]
    rcases h : headCheck (fileHeading contents) with _ | _ | _ <;> simp
  rw [hpf.1, hpf.2]
  exact headCheck_characterization (fileHeading contents)

/-- Counterexample to claim C10 as stated: the header "a,b" has only
two comma-separated fields, yet the program exits cleanly with the
bad-header message (no IndexError), because `heading[0] != "name"`
short-circuits the check before `heading[2]` is subscripted. -/
theorem C10_short_header_counterexample :
    fileHeading "a,b" = ["a", "b"] ∧ (fileHeading "a,b").length < 3 ∧
    parse_file "a,b" = ParseResult.badHeader ∧
    parse_file "a,b" ≠ ParseResult.indexError := by
  refine ⟨by decide, by decide, by decide, by decide⟩

lemma check_f_n_ok (f n : ℝ) (s : String) (hf : 0 < f) (hn : 0 < n) :
    check_f_n f n s = ("no errors", []) := by
  simp [check_f_n, not_le.mpr hf, not_le.mpr hn]

/-- Claim C5: on a data row with at least 3 fields whose f and N fields
parse, the convergence threshold passed to the solver is
min(f, N) / 1000000, computed from that row's own values; here stated
for positive (validated) rows, where the row's processing is exactly a
solver call at that threshold. -/
theorem C5_row_threshold (rep : ℝ → String) (fuel : ℕ) (name fs ns : String)
    (rest : List String) (fq nq : ℚ) (hf : pyfloat fs = some fq) (hn : pyfloat ns = some nq)
    (hfpos : 0 < fq) (hnpos : 0 < nq) :
    processLine rep fuel (name :: fs :: ns :: rest) =
      match calc_rate (nq : ℝ) (fq : ℝ) ((fq : ℝ) / 5)
          (min (fq : ℝ) (nq : ℝ) / 1000000) fuel with
      | none => .error .nonterm
      | some r => .ok (String.intercalate "," [name, fs, ns] ++ "," ++ rep r, []) := by
  have hfr : (0:ℝ) < (fq : ℝ) := by exact_mod_cast hfpos
  have hnr : (0:ℝ) < (nq : ℝ) := by exact_mod_cast hnpos
  simp only [processLine, List.length_cons, List.getD_cons_succ, List.getD_cons_zero,
    List.take_succ_cons, List.take_zero, hf, hn, check_f_n_ok _ _ _ hfr hnr,
    if_neg (by omega : ¬ (rest.length + 1 + 1 + 1 < 3)), ite_true]

/-- Witness for C5 on the row ["A", "10", "1000000"]: the threshold is
min(10, 1000000)/1000000 = 1/100000, far below the sentinel 5, so the
zero-fuel run reports the loop still live. -/
theorem C5_row_threshold_witness :
    processLine (fun _ => "") 0 ["A", "10", "1000000"] = Except.error PyError.nonterm := by
  rw [C5_row_threshold (fun _ => "") 0 "A" "10" "1000000" [] 10 1000000 (by decide) (by decide)
    (by norm_num) (by norm_num)]
  rw [show calc_rate ((1000000:ℚ) : ℝ) ((10:ℚ) : ℝ) (((10:ℚ) : ℝ) / 5)
      (min ((10:ℚ) : ℝ) ((1000000:ℚ) : ℝ) / 1000000) 0 = none from ?_]
  · rw [calc_rate, calcRateLoop, if_pos ?_]
    rw [abs_of_pos (by norm_num : (0:ℝ) < 5)]
    push_cast
    rw [min_eq_left (by norm_num : (10:ℝ) ≤ 1000000)]
    norm_num

/-- Claim C7: a data row with fewer than 3 fields contributes the
literal output value "missing input", a warning line is reported, and
processing continues with the remaining rows; a row that fails
validation likewise continues, with the validation string in the u
position of its output row. -/
theorem C7_row_errors_continue (rep : ℝ → String) (fuel : ℕ) :
    (∀ (line : List String) (rest : List (List String)), line.length < 3 →
      processData rep fuel (line :: rest) =
        match processData rep fuel rest with
        | .error e => .error e
        | .ok pr => .ok ("missing input" :: pr.1,
            ("Warning:  the row \n" ++ String.intercalate "," line ++
              "\ndoes not contain the 3 required inputs.\n") :: pr.2)) ∧
    (∀ (name fs ns : String) (rest0 : List String) (rest : List (List String)) (fq nq : ℚ),
      pyfloat fs = some fq → pyfloat ns = some nq →
      (check_f_n (fq : ℝ) (nq : ℝ) name).1 ≠ "no errors" →
      processData rep fuel ((name :: fs :: ns :: rest0) :: rest) =
        match processData rep fuel rest with
        | .error e => .error e
        | .ok pr => .ok
            ((String.intercalate "," [name, fs, ns] ++ "," ++
                (check_f_n (fq : ℝ) (nq : ℝ) name).1) :: pr.1,
              (check_f_n (fq : ℝ) (nq : ℝ) name).2 ++ pr.2)) := by
  constructor
  · intro line rest hlen
    simp only [processData, processLine, if_pos hlen]
    rcases hrest : processData rep fuel rest with e | pr
    · rfl
    · simp
  · intro name fs ns rest0 rest fq nq hf hn hne
    simp only [processData, processLine, List.length_cons, List.getD_cons_succ,
      List.getD_cons_zero, List.take_succ_cons, List.take_zero, hf, hn,
      if_neg (by omega : ¬ (rest0.length + 1 + 1 + 1 < 3)), if_neg hne]
    rcases hrest : processData rep fuel rest with e | pr
    · rfl
    · rfl

/-- Witness for C7: a 2-field row yields "missing input" plus a
warning and an intact run; a row failing f-validation yields the
validation string in the u position. -/
theorem C7_row_errors_continue_witness :
    processData (fun _ => "") 0 [["C", "5"]] =
      Except.ok (["missing input"],
        ["Warning:  the row \nC,5\ndoes not contain the 3 required inputs.\n"]) ∧
    processData (fun _ => "") 0 [["B", "0", "500"]] =
      Except.ok (["B,0,500,f must be positive"],
        ["Warning: f must be positive.  Please recheck your data for sample B\n"]) := by
  have hcheck : check_f_n ((0:ℚ) : ℝ) ((500:ℚ) : ℝ) "B" =
      ("f must be positive",
        ["Warning: f must be positive.  Please recheck your data for sample B\n"]) := by
    have h0 : ((0:ℚ) : ℝ) = 0 := by norm_num
    have h5 : ((500:ℚ) : ℝ) = 500 := by norm_num
    rw [h0, h5]
    simp [check_f_n, show ¬ ((500:ℝ) ≤ 0) by norm_num]
  constructor
  · rw [(C7_row_errors_continue (fun _ => "") 0).1 ["C", "5"] [] (by decide)]
    rw [show processData (fun _ : ℝ => "") 0 [] = Except.ok ([], []) from rfl]
    rfl
  · rw [(C7_row_errors_continue (fun _ => "") 0).2 "B" "0" "500" [] [] 0 500 (by decide)
      (by decide) (by rw [hcheck]; decide)]
    rw [show processData (fun _ : ℝ => "") 0 [] = Except.ok ([], []) from rfl, hcheck]
    rfl

lemma processLine_ok_shape (rep : ℝ → String) (fuel : ℕ) (line : List String)
    (hlen : 3 ≤ line.length) (out0 : String) (ws0 : List String)
    (h : processLine rep fuel line = .ok (out0, ws0)) :
    ∃ tail, out0 = String.intercalate "," (line.take 3) ++ "," ++ tail ∧
      (tail = "n must be positive" ∨ tail = "f must be positive" ∨ ∃ r, tail = rep r) := by
  simp only [processLine, if_neg (not_lt.mpr hlen)] at h
  rcases hf : pyfloat (line.getD 1 "") with _ | fq
  · rw [hf] at h; exact absurd h (by simp)
  · rw [hf] at h
    rcases hn : pyfloat (line.getD 2 "") with _ | nq
    · rw [hn] at h; exact absurd h (by simp)
    · rw [hn] at h
      dsimp only at h
      by_cases hok : (check_f_n ((fq:ℚ):ℝ) ((nq:ℚ):ℝ) (line.getD 0 "")).1 = "no errors"
      · rw [if_pos hok] at h
        rcases hcr : calc_rate ((nq:ℚ):ℝ) ((fq:ℚ):ℝ) (((fq:ℚ):ℝ) / 5)
            (min ((fq:ℚ):ℝ) ((nq:ℚ):ℝ) / 1000000) fuel with _ | r
        · rw [hcr] at h; exact absurd h (by simp)
        · rw [hcr] at h
          simp only [Except.ok.injEq, Prod.mk.injEq] at h
          exact ⟨rep r, h.1.symm, Or.inr (Or.inr ⟨r, rfl⟩)⟩
      · rw [if_neg hok] at h
        simp only [Except.ok.injEq, Prod.mk.injEq] at h
        rcases check_f_n_fst_cases ((fq:ℚ):ℝ) ((nq:ℚ):ℝ) (line.getD 0 "") with hc | hc | hc
        · exact absurd hc hok
        · exact ⟨_, h.1.symm, Or.inl hc⟩
        · exact ⟨_, h.1.symm, Or.inr (Or.inl hc)⟩

lemma processData_shape (rep : ℝ → String) (fuel : ℕ) :
    ∀ (data : List (List String)) (outs ws : List String),
      (∀ l ∈ data, 3 ≤ l.length) →
      processData rep fuel data = .ok (outs, ws) →
      outs.length = data.length ∧
      ∀ i, i < data.length →
        ∃ tail, outs.getD i "" =
          String.intercalate "," ((data.getD i []).take 3) ++ "," ++ tail ∧
          (tail = "n must be positive" ∨ tail = "f must be positive" ∨ ∃ r, tail = rep r) := by
  intro data
  induction data with
  | nil =>
    intro outs ws _ h
    simp only [processData, Except.ok.injEq, Prod.mk.injEq] at h
    simp [← h.1]
  | cons line rest ih =>
    intro outs ws hlen h
    simp only [processData] at h
    rcases hpl : processLine rep fuel line with e | o
    · rw [hpl] at h; exact absurd h (by simp)
    · obtain ⟨out0, ws0⟩ := o
      rw [hpl] at h
      rcases hrest : processData rep fuel rest with e | pr
      · rw [hrest] at h; exact absurd h (by simp)
      · obtain ⟨outs1, ws1⟩ := pr
        rw [hrest] at h
        simp only [Except.ok.injEq, Prod.mk.injEq] at h
        obtain ⟨houts, hws⟩ := h
        obtain ⟨hlen1, htail⟩ :=
          ih outs1 ws1 (fun l hl => hlen l (List.mem_cons_of_mem _ hl)) hrest
        subst houts
        constructor
        · simp [hlen1]
        · intro i hi
          match i with
          | 0 =>
            exact processLine_ok_shape rep fuel line (hlen line (List.mem_cons_self _ _))
              out0 ws0 hpl
          | j + 1 =>
            simp only [List.getD_cons_succ]
            exact htail j (by simpa using hi)

/-- Claim C6 (amended): for a well-formed table — correct header, every
data row with at least 3 fields — *whose rows all parse and whose valid
rows all terminate* (hypothesis: the row-processing stage succeeds),
the run writes an output table with exactly one row per non-blank input
data row, in order, and each input row's first three fields appear
verbatim (comma-joined) as a prefix of its output row, followed by the
numeric estimate or a validation string.  (As stated the claim fails:
a non-numeric f or N field aborts the whole run with no output.) -/
theorem C6_round_trip_amended (rep : ℝ → String) (fuel : ℕ) (contents : String)
    (data : List (List String)) (outs ws : List String)
    (hparse : parse_file contents = .ok data)
    (hlen : ∀ l ∈ data, 3 ≤ l.length)
    (hproc : processData rep fuel data = .ok (outs, ws)) :
    runMain rep fuel contents = .output ("name,f,N,u" :: outs) ws ∧
    outs.length = data.length ∧
    ∀ i, i < data.length →
      ∃ tail, outs.getD i "" =
        String.intercalate "," ((data.getD i []).take 3) ++ "," ++ tail ∧
        (tail = "n must be positive" ∨ tail = "f must be positive" ∨ ∃ r, tail = rep r) := by
  refine ⟨?_, processData_shape rep fuel data outs ws hlen hproc⟩
  simp only [runMain, hparse, hproc]

/-- Counterexample to claim C6 as stated: the table
"name,f,N\na,x,1" is well-formed in the claim's sense (correct header,
one data row with 3 fields), yet the run aborts on the non-numeric
field "x" with an uncaught ValueError and produces no output table at
all. -/
theorem C6_round_trip_counterexample :
    parse_file "name,f,N\na,x,1" = ParseResult.ok [["a", "x", "1"]] ∧
    (∀ l ∈ [["a", "x", "1"]], 3 ≤ l.length) ∧
    runMain (fun _ => "") 0 "name,f,N\na,x,1" = RunOutcome.valueError := by
  refine ⟨by decide, by decide, ?_⟩
  have hpl : processLine (fun _ : ℝ => "") 0 ["a", "x", "1"] =
      Except.error PyError.valueError := by
    simp only [processLine, if_neg (by decide : ¬ (["a", "x", "1"].length < 3))]
    rw [show pyfloat (["a", "x", "1"].getD 1 "") = none from by decide]
  have hpd : processData (fun _ : ℝ => "") 0 [["a", "x", "1"]] =
      Except.error PyError.valueError := by
    simp only [processData, hpl]
  simp only [runMain, show parse_file "name,f,N\na,x,1" = ParseResult.ok [["a", "x", "1"]]
    from by decide, hpd]

lemma processLine_invalid (rep : ℝ → String) (fuel : ℕ) (name fs ns : String)
    (rest0 : List String) (fq nq : ℚ) (hf : pyfloat fs = some fq) (hn : pyfloat ns = some nq)
    (hne : (check_f_n (fq : ℝ) (nq : ℝ) name).1 ≠ "no errors") :
    processLine rep fuel (name :: fs :: ns :: rest0) =
      .ok (String.intercalate "," [name, fs, ns] ++ "," ++ (check_f_n (fq:ℝ) (nq:ℝ) name).1,
        (check_f_n (fq:ℝ) (nq:ℝ) name).2) := by
  simp only [processLine, List.length_cons, List.getD_cons_succ, List.getD_cons_zero,
    List.take_succ_cons, List.take_zero, hf, hn,
    if_neg (by omega : ¬ (rest0.length + 1 + 1 + 1 < 3)), if_neg hne]

lemma check_f_n_B :
    check_f_n ((0:ℚ) : ℝ) ((500:ℚ) : ℝ) "B" =
      ("f must be positive",
        ["Warning: f must be positive.  Please recheck your data for sample B\n"]) := by
  have h0 : ((0:ℚ) : ℝ) = 0 := by norm_num
  have h5 : ((500:ℚ) : ℝ) = 500 := by norm_num
  rw [h0, h5]
  simp [check_f_n, show ¬ ((500:ℝ) ≤ 0) by norm_num]

/-- Witness for C6 (amended) on the one-row table "name,f,N\nB,0,500"
(the row fails f-validation, so the solver is not needed): the output
table has the header plus exactly one row, which carries the input
fields verbatim followed by the validation string. -/
theorem C6_round_trip_amended_witness :
    runMain (fun _ : ℝ => "") 0 "name,f,N\nB,0,500" =
      RunOutcome.output ["name,f,N,u", "B,0,500,f must be positive"]
        ["Warning: f must be positive.  Please recheck your data for sample B\n"] ∧
    ∃ tail, (["B,0,500,f must be positive"].getD 0 "") =
      String.intercalate "," (([["B", "0", "500"]].getD 0 []).take 3) ++ "," ++ tail ∧
      (tail = "n must be positive" ∨ tail = "f must be positive" ∨
        ∃ r, tail = (fun _ : ℝ => "") r) := by
  have hpl := processLine_invalid (fun _ : ℝ => "") 0 "B" "0" "500" [] 0 500 (by decide)
    (by decide) (by rw [check_f_n_B]; decide)
  rw [check_f_n_B] at hpl
  have hproc : processData (fun _ : ℝ => "") 0 [["B", "0", "500"]] =
      Except.ok (["B,0,500,f must be positive"],
        ["Warning: f must be positive.  Please recheck your data for sample B\n"]) := by
    simp only [processData, hpl]
    rfl
  have h := C6_round_trip_amended (fun _ : ℝ => "") 0 "name,f,N\nB,0,500" [["B", "0", "500"]]
    ["B,0,500,f must be positive"]
    ["Warning: f must be positive.  Please recheck your data for sample B\n"]
    (by decide) (by decide) hproc
  exact ⟨h.1, h.2.2 0 (by norm_num)⟩

lemma processLine_badfloat (rep : ℝ → String) (fuel : ℕ) (name fs ns : String)
    (rest0 : List String) (hbad : pyfloat fs = none ∨ pyfloat ns = none) :
    processLine rep fuel (name :: fs :: ns :: rest0) = .error .valueError := by
  simp only [processLine, List.length_cons, List.getD_cons_succ, List.getD_cons_zero,
    if_neg (by omega : ¬ (rest0.length + 1 + 1 + 1 < 3))]
  rcases hbad with hb | hb
  · rw [hb]
  · rcases hf2 : pyfloat fs with _ | fq
    · rfl
    · dsimp only
      rw [hb]

lemma processData_append_error (rep : ℝ → String) (fuel : ℕ) :
    ∀ (pre bad : List (List String)),
      (∀ l ∈ pre, ∃ o, processLine rep fuel l = Except.ok o) →
      processData rep fuel bad = .error .valueError →
      processData rep fuel (pre ++ bad) = .error .valueError := by
  intro pre
  induction pre with
  | nil => intro bad _ h; simpa using h
  | cons l ls ih =>
    intro bad hpre h
    obtain ⟨⟨out0, ws0⟩, ho⟩ := hpre l (List.mem_cons_self _ _)
    have hih := ih bad (fun l2 hl2 => hpre l2 (List.mem_cons_of_mem _ hl2)) h
    rw [List.cons_append, processData, ho, hih]

/-- Claim C9: a data row with at least 3 fields whose f or N field is
not a valid float literal makes the run raise an uncaught conversion
error: once processing reaches that row (all earlier rows processed
normally), the whole run aborts — subsequent rows are not processed and
no output file is written (outcome `valueError`, not `output`). -/
theorem C9_bad_float_aborts (rep : ℝ → String) (fuel : ℕ)
    (pre post : List (List String)) (name fs ns : String) (rest0 : List String)
    (hpre : ∀ l ∈ pre, ∃ o, processLine rep fuel l = Except.ok o)
    (hbad : pyfloat fs = none ∨ pyfloat ns = none) :
    processData rep fuel (pre ++ (name :: fs :: ns :: rest0) :: post) =
      .error .valueError ∧
    ∀ contents, parse_file contents = .ok (pre ++ (name :: fs :: ns :: rest0) :: post) →
      runMain rep fuel contents = .valueError := by
  have habort : processData rep fuel (pre ++ (name :: fs :: ns :: rest0) :: post) =
      .error .valueError := by
    apply processData_append_error rep fuel pre _ hpre
    simp only [processData, processLine_badfloat rep fuel name fs ns rest0 hbad]
  refine ⟨habort, fun contents hc => ?_⟩
  simp only [runMain, hc, habort]

/-- Witness for C9 on the table "name,f,N\na,x,1": the field "x" is
not numeric, the run ends in the uncaught ValueError. -/
theorem C9_bad_float_aborts_witness :
    processData (fun _ : ℝ => "") 0 [["a", "x", "1"]] = Except.error PyError.valueError ∧
    runMain (fun _ : ℝ => "") 0 "name,f,N\na,x,1" = RunOutcome.valueError := by
  have h := C9_bad_float_aborts (fun _ : ℝ => "") 0 [] [] "a" "x" "1" []
    (by simp) (Or.inl (by decide))
  exact ⟨by simpa using h.1, h.2 "name,f,N\na,x,1" (by decide)⟩
